import Mathlib

/-!
Shallow embedding of the vkrtlib GPGPU runtime (src/vkrtlib.cc, src/vkrtlib.h)
for checking its natural-language specification.

The library is a thin layer over the Vulkan driver API.  The library code is
embedded faithfully; the Vulkan driver itself is external to the repository, so
its observable behaviour (call results, out-parameters, documented validity
rules) is modelled by explicit inputs: a record of driver responses is passed
to each embedded constructor/operation, and driver calls that can fail are
modelled by the corresponding response field.  Machine integers that matter
here (sizes, counts, indices) never overflow in the embedded fragments, so
they are modelled by Nat/Int directly; the C++ sentinel value -1 used for
"not found" indices is kept as an Int, as in the source.
-/

namespace vkrtl

/-- Error enumeration, from vkrtlib.h lines 20-34 (enum Error). -/
inductive Error where
  | VKRTL_ERROR_CREATE_REPORT_CALLBACK
  | VKRTL_ERROR_CREATE_INSTANCE
  | VKRTL_ERROR_DEVICES
  | VKRTL_ERROR_COMPUTE_QUEUE
  | VKRTL_ERROR_SUBMIT_QUEUE
  | VKRTL_ERROR_DESCRIPTOR
  | VKRTL_ERROR_SHADER
  | VKRTL_ERROR_PIPELINE
  | VKRTL_ERROR_COMMAND_POOL
  | VKRTL_ERROR_COMMAND_BUFFER
  | VKRTL_ERROR_CREATE_BUFFER
  | VKRTL_ERROR_MAP
  | VKRTL_ERROR_MALLOC
deriving DecidableEq, BEq

/-- Mode options, from vkrtlib.h line 39 (enum ModeOptions). -/
inductive ModeOptions where
  | VKRTL_none
  | VKRTL_verbose
  | VKRTL_profile
  | VKRTL_all
deriving DecidableEq, BEq

/-- Result of a Vulkan driver call: VK_SUCCESS or some failure code.  The
library only ever distinguishes success from non-success. -/
inductive VkResult where
  | success
  | errorCode
deriving DecidableEq, BEq

deriving instance DecidableEq for Except

/-- The flag bits of one VkMemoryType descriptor that the library inspects
(VK_MEMORY_PROPERTY_HOST_VISIBLE_BIT and VK_MEMORY_PROPERTY_DEVICE_LOCAL_BIT,
vkrtlib.cc lines 247 and 253). -/
structure MemoryTypeFlags where
  hostVisible : Bool
  deviceLocal : Bool
deriving DecidableEq, BEq

/-- Embedding of the memory-type scan loop of Device::Device
(vkrtlib.cc lines 243-257).  `i` is the loop index, `mappable` and `loc`
are the running values of the fields memoryTypeMappable / memoryTypeLocal
(both initialized to -1, vkrtlib.h lines 96-99).  Each branch assigns the
current index only while the field still holds -1, exactly as the two
`&& memoryType... == -1` guards do in the source. -/
def scanMemoryTypesAux (types : List MemoryTypeFlags) (i : Nat)
    (mappable loc : Int) : Int × Int :=
  match types with
  | [] => (mappable, loc)
  | t :: rest =>
    let mappable := if t.hostVisible && mappable == -1 then Int.ofNat i else mappable
    let loc := if t.deviceLocal && loc == -1 then Int.ofNat i else loc
    scanMemoryTypesAux rest (i + 1) mappable loc

/-- The complete scan as run by the Device constructor: loop from index 0 with
both fields at their initial value -1.  First component is memoryTypeMappable,
second is memoryTypeLocal. -/
def scanMemoryTypes (types : List MemoryTypeFlags) : Int × Int :=
  scanMemoryTypesAux types 0 (-1) (-1)

/-- Spec-side definition (from the spec's words, for comparison with the
scan embedded from the source): the index of the *first* memory type
satisfying `p`, when one exists. -/
def firstIndexSatisfying (p : MemoryTypeFlags → Bool) : List MemoryTypeFlags → Option Nat
  | [] => none
  | t :: rest =>
    if p t then some 0 else (firstIndexSatisfying p rest).map (fun j => j + 1)

/-- Render an optional first-match index the way the Device fields hold it:
the index shifted by the number of entries already scanned, with -1 for
"no match". -/
def shiftIdx (o : Option Nat) (i : Nat) : Int :=
  match o with
  | some j => Int.ofNat (i + j)
  | none => -1

/-- Embedding of the compute-queue-family selection loop of Device::Device
(vkrtlib.cc lines 200-206): the first queue family whose flags contain
VK_QUEUE_COMPUTE_BIT, with the field left at its initial -1 when none does.
`fams` lists, per queue family, whether the compute bit is set. -/
def selectComputeFamily (fams : List Bool) (i : Nat) : Int :=
  match fams with
  | [] => -1
  | f :: rest => if f then Int.ofNat i else selectComputeFamily rest (i + 1)

/-- sizeof(uint32_t *) on the LP64 platforms the library targets: the static
size of the pointer itself, 8 bytes. -/
def sizeofUInt32Ptr : Nat := 8

/-- The fields of VkShaderModuleCreateInfo that the Program constructors fill
in: the declared byte size of the shader code and the code blob the pCode
pointer refers to (modelled as the pointed-to words). -/
structure ShaderModuleCreateInfo where
  codeSize : Nat
  code : List UInt32
deriving DecidableEq, BEq

/-- Embedding of the in-memory Program constructor's create-info setup,
Program::Program(Device &, uint32_t *data), vkrtlib.cc lines 543-546:
codeSize is set to sizeof(data), the static size of the pointer, and pCode
to the blob; nothing about the blob's actual length is consulted. -/
def shaderModuleCreateInfoFromMemory (data : List UInt32) : ShaderModuleCreateInfo :=
  { codeSize := sizeofUInt32Ptr, code := data }

/-- Embedding of the file-based Program constructor's create-info setup,
Program::Program(Device &, const char *), vkrtlib.cc lines 526-536: codeSize
is the byte length read from the file. -/
def shaderModuleCreateInfoFromFile (bytes : List UInt32) (byteLength : Nat) :
    ShaderModuleCreateInfo :=
  { codeSize := byteLength, code := bytes }

/-- Embedding of the in-memory Program constructor as a whole
(vkrtlib.cc lines 543-550): builds the create info and calls
vkCreateShaderModule, throwing VKRTL_ERROR_SHADER exactly when the driver
rejects the call (`driverAccepts` models the driver's verdict).  No
validation of the blob is performed by the library itself. -/
def Program.constructFromMemory (driverAccepts : Bool) (data : List UInt32) :
    Except Error ShaderModuleCreateInfo :=
  let info := shaderModuleCreateInfoFromMemory data
  if !driverAccepts then .error .VKRTL_ERROR_SHADER else .ok info

/-- VK_PIPELINE_STAGE_ALL_COMMANDS_BIT (the stage mask the source passes to
vkCmdPipelineBarrier for both src and dst, vkrtlib.cc lines 404-405). -/
def VK_PIPELINE_STAGE_ALL_COMMANDS_BIT : Nat := 0x00010000

/-- A VkMemoryBarrier: the pair of access masks that make prior writes
available and visible across a pipeline barrier. -/
structure MemoryBarrier where
  srcAccessMask : Nat
  dstAccessMask : Nat
deriving DecidableEq, BEq

/-- Union of every VkAccessFlagBits bit defined by Vulkan 1.0 (bits 0-16):
a mask containing all access types. -/
def allAccessMask : Nat := 0x0001FFFF

/-- Commands that the library records into a VkCommandBuffer.  A pipeline
barrier carries its two stage masks and the list of memory barriers passed
to vkCmdPipelineBarrier (the source passes memoryBarrierCount = 0,
pMemoryBarriers = nullptr; buffer and image barriers are likewise absent and
are folded into the same empty list here). -/
inductive Cmd where
  | pipelineBarrier (srcStageMask dstStageMask : Nat) (memoryBarriers : List MemoryBarrier)
  | dispatch (x y z : Int)
  | copyBuffer (byteSize : Nat)
deriving DecidableEq, BEq

/-- Embedding of CommandBuffer::barrier() (vkrtlib.cc lines 402-407): appends
to the recording a vkCmdPipelineBarrier with both stage masks equal to
VK_PIPELINE_STAGE_ALL_COMMANDS_BIT and with zero memory, buffer and image
barriers. -/
def CommandBuffer.barrier (cmds : List Cmd) : List Cmd :=
  cmds ++ [Cmd.pipelineBarrier VK_PIPELINE_STAGE_ALL_COMMANDS_BIT
    VK_PIPELINE_STAGE_ALL_COMMANDS_BIT []]

/-- Spec-side definition (from the claim's words): a command is a pipeline
barrier covering all pipeline stages and all access types when both its stage
masks contain every stage and some memory barrier it carries makes every
access type available and visible. -/
def coversAllStagesAndAccessTypes (c : Cmd) : Bool :=
  match c with
  | Cmd.pipelineBarrier src dst mbs =>
      src == VK_PIPELINE_STAGE_ALL_COMMANDS_BIT &&
      dst == VK_PIPELINE_STAGE_ALL_COMMANDS_BIT &&
      mbs.any (fun mb => mb.srcAccessMask == allAccessMask && mb.dstAccessMask == allAccessMask)
  | _ => false

/-- The driver-visible description of one physical accelerator, together with
the driver's responses to the per-device calls the Device constructor makes:
for each queue family whether it advertises VK_QUEUE_COMPUTE_BIT, the
memory-type descriptors, and whether vkCreateDevice, vkCreateCommandPool and
vkAllocateCommandBuffers succeed for this device. -/
structure PhysDev where
  computeFamilies : List Bool
  memoryTypes : List MemoryTypeFlags
  createDeviceOk : Bool
  createPoolOk : Bool
  allocCmdBufOk : Bool
deriving DecidableEq, BEq

/-- The state a constructed Device holds that later code reads: the discovered
compute queue family and the two memory-type indices from the constructor's
scan (vkrtlib.h lines 96-102; assigned only in the constructor and immutable
by construction in this embedding, as in the source where no other member
writes them). -/
structure Device where
  computeQueueFamily : Int
  memoryTypeMappable : Int
  memoryTypeLocal : Int
  memoryTypes : List MemoryTypeFlags
deriving DecidableEq, BEq

/-- Embedding of Device::Device (vkrtlib.cc lines 191-263): select the first
compute-capable queue family (throw VKRTL_ERROR_COMPUTE_QUEUE if none);
create the logical device (vkCreateDevice failure throws
VKRTL_ERROR_DEVICES); scan the memory types; create the implicit
CommandBuffer (pool / allocation failure throws VKRTL_ERROR_COMMAND_POOL /
VKRTL_ERROR_COMMAND_BUFFER from CommandBuffer::sharedConstructor,
vkrtlib.cc lines 351-373). -/
def Device.construct (pd : PhysDev) : Except Error Device :=
  let fam := selectComputeFamily pd.computeFamilies 0
  if fam = -1 then .error .VKRTL_ERROR_COMPUTE_QUEUE
  else if !pd.createDeviceOk then .error .VKRTL_ERROR_DEVICES
  else
    let scanned := scanMemoryTypes pd.memoryTypes
    if !pd.createPoolOk then .error .VKRTL_ERROR_COMMAND_POOL
    else if !pd.allocCmdBufOk then .error .VKRTL_ERROR_COMMAND_BUFFER
    else .ok { computeQueueFamily := fam, memoryTypeMappable := scanned.1,
               memoryTypeLocal := scanned.2, memoryTypes := pd.memoryTypes }

/-- Embedding of the device-wrapping loop of Object::Object (vkrtlib.cc
lines 163-165): construct a Device for each enumerated physical accelerator
in order; the first failure propagates. -/
def constructDevices (pds : List PhysDev) : Except Error (List Device) :=
  match pds with
  | [] => .ok []
  | pd :: rest =>
    match Device.construct pd with
    | .error e => .error e
    | .ok d =>
      match constructDevices rest with
      | .error e => .error e
      | .ok ds => .ok (d :: ds)

/-- Driver responses consumed by Object::Object: the instance layers reported
by vkEnumerateInstanceLayerProperties, whether vkCreateInstance succeeds,
whether vkGetInstanceProcAddr resolves vkCreateDebugReportCallbackEXT, the
results of the two vkEnumeratePhysicalDevices calls, and the enumerated
physical devices themselves (the first call reports their count, the second
fills the array). -/
structure DriverWorld where
  instanceLayers : List String
  createInstanceOk : Bool
  debugProcAvailable : Bool
  enumResult1 : VkResult
  enumResult2 : VkResult
  physDevs : List PhysDev
deriving DecidableEq, BEq

/-- The required validation layers, vkrtlib.cc line 71. -/
def validationLayers : List String := ["VK_LAYER_LUNARG_standard_validation"]

/-- Embedding of the layer-availability check of Object::Object (vkrtlib.cc
lines 96-109): every required layer must appear among the instance layers
reported by the driver (string comparison as strcmp == 0). -/
def layersAvailableCheck (instanceLayers : List String) : Bool :=
  validationLayers.all (fun name => instanceLayers.any (fun l => l == name))

/-- The two fields of VkInstanceCreateInfo that the constructor conditionally
fills in (it zero-initializes the struct, so both counts start at 0). -/
structure InstanceCreateInfo where
  enabledLayerCount : Nat
  enabledExtensionCount : Nat
deriving DecidableEq, BEq

/-- Embedding of the create-info setup of Object::Object (vkrtlib.cc lines
54-122): when the validation layer is available it is enabled
unconditionally (lines 111-113), and additionally the debug-report extension
is enabled only in verbose mode (lines 115-121). -/
def instanceCreateInfo (w : DriverWorld) (verbose : Bool) : InstanceCreateInfo :=
  let layersAvailable := layersAvailableCheck w.instanceLayers
  if layersAvailable then
    { enabledLayerCount := 1, enabledExtensionCount := if verbose then 1 else 0 }
  else
    { enabledLayerCount := 0, enabledExtensionCount := 0 }

/-- The _verbose flag, vkrtlib.cc line 51. -/
def verboseOf (mode : ModeOptions) : Bool :=
  mode == ModeOptions.VKRTL_verbose || mode == ModeOptions.VKRTL_all

/-- The state of a constructed Object (context): the instance create info it
was created with, the Device wrappers, and whether the debug-report callback
was installed (done exactly when verbose, vkrtlib.cc lines 128-149). -/
structure ObjectState where
  createInfo : InstanceCreateInfo
  devices : List Device
  callbackInstalled : Bool
deriving DecidableEq, BEq

/-- Embedding of Object::Object (vkrtlib.cc lines 49-168), in source order:
build the instance create info; vkCreateInstance (failure throws
VKRTL_ERROR_CREATE_INSTANCE, line 124); in verbose mode resolve the
debug-callback entry point (a null result throws
VKRTL_ERROR_CREATE_REPORT_CALLBACK, line 143; the creation call's own result
is not checked); enumerate physical devices: the first call failing or
reporting zero devices throws VKRTL_ERROR_DEVICES (lines 153-156), the
second call failing throws VKRTL_ERROR_DEVICES (lines 159-161); wrap every
enumerated physical device in a Device (lines 163-165). -/
def Object.construct (w : DriverWorld) (mode : ModeOptions) : Except Error ObjectState :=
  let verbose := verboseOf mode
  let ci := instanceCreateInfo w verbose
  if !w.createInstanceOk then .error .VKRTL_ERROR_CREATE_INSTANCE
  else if verbose && !w.debugProcAvailable then .error .VKRTL_ERROR_CREATE_REPORT_CALLBACK
  else if w.enumResult1 ≠ VkResult.success ∨ w.physDevs.length = 0 then
    .error .VKRTL_ERROR_DEVICES
  else if w.enumResult2 ≠ VkResult.success then .error .VKRTL_ERROR_DEVICES
  else
    match constructDevices w.physDevs with
    | .error e => .error e
    | .ok ds => .ok { createInfo := ci, devices := ds, callbackInstalled := verbose }

/-- Embedding of Object::getDevice (vkrtlib.cc lines 182-184): returns
devices[0] with no bounds check; the access is in range exactly when the
option is some. -/
def Object.getDevice (st : ObjectState) : Option Device :=
  st.devices[0]?

/-- Host-visible states of a command buffer in this synchronous library
(spec section 4.7).  The pending state is transient here: every submission
is driven by submit-then-wait on the single host thread, so begin() is never
reached with work in flight. -/
inductive CBState where
  | initial
  | recording
  | executable
deriving DecidableEq, BEq

/-- Model of vkBeginCommandBuffer, from the external Vulkan API contract:
beginning a command buffer that is already in the recording state is
rejected; otherwise the call succeeds unless the driver fails for its own
reasons (`driverReject`), and on success the buffer (implicitly reset, the
pool having VK_COMMAND_POOL_CREATE_RESET_COMMAND_BUFFER_BIT) enters the
recording state. -/
def vkBeginCommandBuffer (s : CBState) (driverReject : Bool) : VkResult × CBState :=
  if s = CBState.recording then (VkResult.errorCode, s)
  else if driverReject then (VkResult.errorCode, s)
  else (VkResult.success, CBState.recording)

/-- Embedding of CommandBuffer::begin (vkrtlib.cc lines 395-400): call
vkBeginCommandBuffer and throw VKRTL_ERROR_COMMAND_BUFFER exactly when the
driver call does not return VK_SUCCESS. -/
def CommandBuffer.beginCB (s : CBState) (driverReject : Bool) : Except Error CBState :=
  let r := vkBeginCommandBuffer s driverReject
  if r.1 ≠ VkResult.success then .error .VKRTL_ERROR_COMMAND_BUFFER
  else .ok r.2

/-- The slice of Device state that Buffer operations read (every Buffer
carries it, Buffer deriving from Device in the source), plus the driver's
vkGetBufferMemoryRequirements response: `reqSize b` is the
memoryRequirements.size the driver reports for a buffer created with size
`b` (the driver may round the requested size up; it never reports less). -/
structure DeviceCtx where
  memoryTypes : List MemoryTypeFlags
  memoryTypeMappable : Int
  memoryTypeLocal : Int
  reqSize : Nat → Nat

/-- Whether the memory type at index `idx` of this device is host-visible
(mappable via vkMapMemory); a negative or out-of-range index is not. -/
def hostVisibleAt (dev : DeviceCtx) (idx : Int) : Bool :=
  match idx with
  | Int.ofNat i =>
    match dev.memoryTypes[i]? with
    | some t => t.hostVisible
    | none => false
  | Int.negSucc _ => false

/-- A Buffer: the size requested at creation (VkBufferCreateInfo.size), the
memory-type index its VkDeviceMemory was allocated from, and the contents of
that allocation (whose length is the driver-reported requirements size). -/
structure Buffer where
  byteSize : Nat
  memTypeIdx : Int
  alloc : List UInt8
deriving DecidableEq, BEq

/-- Embedding of Buffer::Buffer (vkrtlib.cc lines 419-458): the allocation
uses the device's mappable memory-type index when the `mappable` flag is
set and the local index otherwise (line 442), and its size is the
driver-reported requirements size for `byteSize` (lines 436-441).  The
vkCreateBuffer / vkAllocateMemory / vkBindBufferMemory failure paths throw
VKRTL_ERROR_CREATE_BUFFER / VKRTL_ERROR_MALLOC; the transfer claims quantify
over successfully created buffers, so those driver failures are not modelled
here.  Fresh device memory has unspecified contents; it is modelled as
zeroed, and no claim depends on the initial contents. -/
def Buffer.construct (dev : DeviceCtx) (byteSize : Nat) (mappable : Bool) : Buffer :=
  { byteSize := byteSize
    memTypeIdx := if mappable then dev.memoryTypeMappable else dev.memoryTypeLocal
    alloc := List.replicate (dev.reqSize byteSize) 0 }

/-- Embedding of Buffer::map (vkrtlib.cc lines 518-524): vkMapMemory yields a
pointer into the allocation; mapping memory whose type is not host-visible
is not valid usage of the driver, modelled as the non-success result on
which the source throws VKRTL_ERROR_MAP. -/
def Buffer.mapMem (dev : DeviceCtx) (b : Buffer) : Except Error (List UInt8) :=
  if hostVisibleAt dev b.memTypeIdx then .ok b.alloc else .error .VKRTL_ERROR_MAP

/-- memcpy semantics on byte lists: overwrite the first `n` bytes of `dst`
with the first `n` bytes of `src` (all memcpy and vkCmdCopyBuffer uses in
the transfer paths copy from offset 0 to offset 0). -/
def memWrite (src dst : List UInt8) (n : Nat) : List UInt8 :=
  src.take n ++ dst.drop n

/-- Driver calls and library steps observable during a transfer, in the
order the source performs them; createBuffer records the size and mappable
flag the temporary Buffer is created with, copyCmd the VkBufferCopy size
recorded into the implicit command buffer, memcpyHost the host memcpy
length. -/
inductive Ev where
  | createBuffer (byteSize : Nat) (mappable : Bool)
  | mapMem
  | memcpyHost (n : Nat)
  | unmapMem
  | beginRec
  | copyCmd (n : Nat)
  | endRec
  | submit
  | wait
  | destroyBuf
deriving DecidableEq

/-- Embedding of Buffer::offload (vkrtlib.cc lines 482-497), host to device.
Note two points taken directly from the source: the temporary is created as
`Buffer mappable(*this, memoryRequirements.size, memoryTypeMappable)`, whose
third argument is the bool `mappable` parameter, so the int index
memoryTypeMappable is converted to bool (nonzero becomes true); and the
map/memcpy/unmap of the temporary happens before the
begin/copy/end/submit/wait sequence on the implicit command buffer.  Returns
the trace of steps performed and the buffer's new state (or the thrown
error, which aborts the remaining steps). -/
def Buffer.offload (dev : DeviceCtx) (b : Buffer) (hostPtr : List UInt8) :
    List Ev × Except Error Buffer :=
  let req := dev.reqSize b.byteSize
  let stagingMappable := dev.memoryTypeMappable != 0
  let staging := Buffer.construct dev req stagingMappable
  match Buffer.mapMem dev staging with
  | .error e => ([Ev.createBuffer req stagingMappable, Ev.mapMem], .error e)
  | .ok mapped =>
    let staging := { staging with alloc := memWrite hostPtr mapped req }
    let b := { b with alloc := memWrite staging.alloc b.alloc req }
    ([Ev.createBuffer req stagingMappable, Ev.mapMem, Ev.memcpyHost req, Ev.unmapMem,
      Ev.beginRec, Ev.copyCmd req, Ev.endRec, Ev.submit, Ev.wait, Ev.destroyBuf],
     .ok b)

/-- Embedding of Buffer::inload (vkrtlib.cc lines 465-480), device to host.
The temporary is created with the same int-to-bool conversion as in offload;
here the begin/copy/end/submit/wait sequence runs first and the temporary is
mapped, memcpy'd to the host array and unmapped afterwards.  Returns the
trace and the host array's new contents (or the thrown error). -/
def Buffer.inload (dev : DeviceCtx) (b : Buffer) (hostPtr : List UInt8) :
    List Ev × Except Error (List UInt8) :=
  let req := dev.reqSize b.byteSize
  let stagingMappable := dev.memoryTypeMappable != 0
  let staging := Buffer.construct dev req stagingMappable
  let staging := { staging with alloc := memWrite b.alloc staging.alloc req }
  match Buffer.mapMem dev staging with
  | .error e =>
    ([Ev.createBuffer req stagingMappable, Ev.beginRec, Ev.copyCmd req, Ev.endRec,
      Ev.submit, Ev.wait, Ev.mapMem], .error e)
  | .ok mapped =>
    ([Ev.createBuffer req stagingMappable, Ev.beginRec, Ev.copyCmd req, Ev.endRec,
      Ev.submit, Ev.wait, Ev.mapMem, Ev.memcpyHost req, Ev.unmapMem, Ev.destroyBuf],
     .ok (memWrite mapped hostPtr req))

/-- A physical accelerator whose per-device driver calls all succeed:
one compute-capable queue family and one memory type that is both
host-visible and device-local. -/
def pdGood : PhysDev :=
  { computeFamilies := [true], memoryTypes := [{ hostVisible := true, deviceLocal := true }],
    createDeviceOk := true, createPoolOk := true, allocCmdBufOk := true }

/-- Like pdGood but vkCreateDevice fails for it. -/
def pdNoLogicalDevice : PhysDev :=
  { computeFamilies := [true], memoryTypes := [{ hostVisible := true, deviceLocal := true }],
    createDeviceOk := false, createPoolOk := true, allocCmdBufOk := true }

/-- A driver in which instance creation and both enumeration calls succeed,
one accelerator is reported, but logical-device creation for it fails. -/
def wDeviceCreationFails : DriverWorld :=
  { instanceLayers := [], createInstanceOk := true, debugProcAvailable := true,
    enumResult1 := VkResult.success, enumResult2 := VkResult.success,
    physDevs := [pdNoLogicalDevice] }

/-- A driver whose very first physical-device enumeration call fails. -/
def wEnumFails : DriverWorld :=
  { instanceLayers := [], createInstanceOk := true, debugProcAvailable := true,
    enumResult1 := VkResult.errorCode, enumResult2 := VkResult.success,
    physDevs := [pdGood] }

/-- A driver with the known validation layer available, where everything
succeeds and one good accelerator is enumerated. -/
def wLayerAvailable : DriverWorld :=
  { instanceLayers := ["VK_LAYER_LUNARG_standard_validation"],
    createInstanceOk := true, debugProcAvailable := true,
    enumResult1 := VkResult.success, enumResult2 := VkResult.success,
    physDevs := [pdGood] }

/-- The ObjectState produced by constructing a Context against
wLayerAvailable in mode VKRTL_none. -/
def objLayerAvailable : ObjectState :=
  { createInfo := { enabledLayerCount := 1, enabledExtensionCount := 0 },
    devices := [{ computeQueueFamily := 0, memoryTypeMappable := 0,
                  memoryTypeLocal := 0,
                  memoryTypes := [{ hostVisible := true, deviceLocal := true }] }],
    callbackInstalled := false }

/-- A device on which the staging-buffer slip does not bite: memory type 0 is
device-local only, memory type 1 is host-visible only, so the first
host-visible index is the nonzero 1; the driver reports buffer memory
requirements equal to the requested size. -/
def devRoundtrip : DeviceCtx :=
  { memoryTypes := [{ hostVisible := false, deviceLocal := true },
                    { hostVisible := true, deviceLocal := false }],
    memoryTypeMappable := 1, memoryTypeLocal := 0, reqSize := fun n => n }

/-- A device on which the staging-buffer slip does bite: the first
host-visible memory type is at index 0, and the device-local type at index 1
is not host-visible. -/
def devBadStaging : DeviceCtx :=
  { memoryTypes := [{ hostVisible := true, deviceLocal := false },
                    { hostVisible := false, deviceLocal := true }],
    memoryTypeMappable := 0, memoryTypeLocal := 1, reqSize := fun n => n }

/-- Same shape as devRoundtrip, used for the C2 order analysis. -/
def devOrder : DeviceCtx :=
  { memoryTypes := [{ hostVisible := false, deviceLocal := true },
                    { hostVisible := true, deviceLocal := false }],
    memoryTypeMappable := 1, memoryTypeLocal := 0, reqSize := fun n => n }

/-- A device whose driver rounds buffer allocations up to multiples of
4 bytes, so that a 3-byte buffer has a 4-byte allocation. -/
def devPadded : DeviceCtx :=
  { memoryTypes := [{ hostVisible := false, deviceLocal := true },
                    { hostVisible := true, deviceLocal := false }],
    memoryTypeMappable := 1, memoryTypeLocal := 0,
    reqSize := fun n => 4 * ((n + 3) / 4) }

lemma shiftIdx_map_succ (o : Option Nat) (i : Nat) :
    shiftIdx (o.map (fun j => j + 1)) i = shiftIdx o (i + 1) := by
  cases o with
  | none => rfl
  | some j =>
    simp only [Option.map_some', shiftIdx]
    congr 1
    omega

lemma scanMemoryTypesAux_spec (types : List MemoryTypeFlags) :
    ∀ (i : Nat) (m l : Int),
    scanMemoryTypesAux types i m l =
      ((if m = -1 then shiftIdx (firstIndexSatisfying (fun t => t.hostVisible) types) i else m),
       (if l = -1 then shiftIdx (firstIndexSatisfying (fun t => t.deviceLocal) types) i else l)) := by
  induction types with
  | nil =>
    intro i m l
    simp only [scanMemoryTypesAux, firstIndexSatisfying, shiftIdx, Prod.mk.injEq]
    constructor <;> (split <;> simp_all)
  | cons t rest ih =>
    intro i m l
    have hofNat : (Int.ofNat i) ≠ -1 := by
      have h0 : (0 : Int) ≤ Int.ofNat i := Int.ofNat_nonneg i
      omega
    simp only [scanMemoryTypesAux, firstIndexSatisfying]
    rw [ih]
    simp only [Prod.mk.injEq]
    constructor
    · by_cases hp : t.hostVisible = true
      · by_cases hm : m = -1
        · subst hm
          simp [hp, hofNat, shiftIdx]
        · simp [hp, hm, beq_iff_eq]
      · simp only [Bool.not_eq_true] at hp
        by_cases hm : m = -1
        · subst hm
          simp [hp, shiftIdx_map_succ]
        · simp [hp, hm]
    · by_cases hp : t.deviceLocal = true
      · by_cases hl : l = -1
        · subst hl
          simp [hp, hofNat, shiftIdx]
        · simp [hp, hl, beq_iff_eq]
      · simp only [Bool.not_eq_true] at hp
        by_cases hl : l = -1
        · subst hl
          simp [hp, shiftIdx_map_succ]
        · simp [hp, hl]

/-- C6: Device construction scans the memory-type descriptors in index order
and records as memoryTypeMappable the first index whose flags include
host-visible and as memoryTypeLocal the first index whose flags include
device-local (first match, not best match), each left at -1 when no index
qualifies.  The two indices are fields assigned only by this constructor
scan (vkrtlib.cc lines 243-257) and are immutable thereafter. -/
theorem device_memory_scan_is_first_match (types : List MemoryTypeFlags) :
    scanMemoryTypes types =
      (shiftIdx (firstIndexSatisfying (fun t => t.hostVisible) types) 0,
       shiftIdx (firstIndexSatisfying (fun t => t.deviceLocal) types) 0) := by
  rw [scanMemoryTypes, scanMemoryTypesAux_spec]
  simp

/-- C4: the in-memory Program constructor sets the shader code size to
sizeof(uint32_t *), the static size of the pointer (8 bytes on the LP64
targets), for every blob: the size is a constant independent of the blob,
and the constructor performs no validation of any size against the blob's
actual content length — its outcome depends only on the driver's verdict. -/
theorem program_from_memory_uses_pointer_size (data : List UInt32) :
    (shaderModuleCreateInfoFromMemory data).codeSize = sizeofUInt32Ptr ∧
    sizeofUInt32Ptr = 8 ∧
    (∀ other : List UInt32,
      (shaderModuleCreateInfoFromMemory data).codeSize =
        (shaderModuleCreateInfoFromMemory other).codeSize) ∧
    (∀ driverAccepts : Bool,
      Program.constructFromMemory driverAccepts data =
        if driverAccepts then .ok (shaderModuleCreateInfoFromMemory data)
        else .error Error.VKRTL_ERROR_SHADER) := by
  refine ⟨rfl, rfl, fun other => rfl, fun driverAccepts => ?_⟩
  cases driverAccepts <;> rfl

/-- C3 counterexample: the command recorded by barrier() carries zero memory
barriers, so it does not cover all access types — at the concrete recording
that starts from an empty command buffer, the recorded command has an empty
memory-barrier list and coversAllStagesAndAccessTypes rejects it. -/
theorem barrier_all_access_counterexample :
    CommandBuffer.barrier [] =
      [Cmd.pipelineBarrier VK_PIPELINE_STAGE_ALL_COMMANDS_BIT
        VK_PIPELINE_STAGE_ALL_COMMANDS_BIT []] ∧
    coversAllStagesAndAccessTypes
      (Cmd.pipelineBarrier VK_PIPELINE_STAGE_ALL_COMMANDS_BIT
        VK_PIPELINE_STAGE_ALL_COMMANDS_BIT []) = false := by
  refine ⟨rfl, ?_⟩
  decide

/-- C3 (amended): every call to CommandBuffer::barrier() records a pipeline
barrier whose source and destination stage masks cover all pipeline stages
(VK_PIPELINE_STAGE_ALL_COMMANDS_BIT) but which carries zero memory, buffer
and image barriers — an execution-only dependency specifying no access
types; in particular the newly recorded command never satisfies the
all-stages-and-all-access-types property. -/
theorem barrier_records_execution_only_barrier (cmds : List Cmd) :
    CommandBuffer.barrier cmds =
      cmds ++ [Cmd.pipelineBarrier VK_PIPELINE_STAGE_ALL_COMMANDS_BIT
        VK_PIPELINE_STAGE_ALL_COMMANDS_BIT []] ∧
    (∀ c, c ∈ CommandBuffer.barrier cmds → c ∉ cmds →
      coversAllStagesAndAccessTypes c = false) := by
  refine ⟨rfl, fun c hmem hnot => ?_⟩
  rw [CommandBuffer.barrier, List.mem_append] at hmem
  rcases hmem with h | h
  · exact absurd h hnot
  · rw [List.mem_singleton] at h
    subst h
    decide

/-- C3 witness: the recorded-shape theorem applied to the empty recording. -/
theorem barrier_records_execution_only_barrier_witness :
    coversAllStagesAndAccessTypes
      (Cmd.pipelineBarrier VK_PIPELINE_STAGE_ALL_COMMANDS_BIT
        VK_PIPELINE_STAGE_ALL_COMMANDS_BIT []) = false :=
  (barrier_records_execution_only_barrier []).2
    (Cmd.pipelineBarrier VK_PIPELINE_STAGE_ALL_COMMANDS_BIT
      VK_PIPELINE_STAGE_ALL_COMMANDS_BIT [])
    (by simp [CommandBuffer.barrier]) (by simp)

lemma constructDevices_length (pds : List PhysDev) :
    ∀ ds, constructDevices pds = .ok ds → ds.length = pds.length := by
  induction pds with
  | nil =>
    intro ds h
    simp only [constructDevices] at h
    cases h
    rfl
  | cons pd rest ih =>
    intro ds h
    simp only [constructDevices] at h
    cases hd : Device.construct pd with
    | error e => rw [hd] at h; cases h
    | ok d =>
      rw [hd] at h
      cases hr : constructDevices rest with
      | error e => rw [hr] at h; cases h
      | ok ds2 =>
        rw [hr] at h
        cases h
        simp [ih ds2 hr]

lemma Object.construct_ok_inversion (w : DriverWorld) (mode : ModeOptions)
    (st : ObjectState) (hok : Object.construct w mode = .ok st) :
    constructDevices w.physDevs = .ok st.devices ∧
    st.createInfo = instanceCreateInfo w (verboseOf mode) ∧
    st.callbackInstalled = verboseOf mode ∧
    w.physDevs.length ≠ 0 := by
  simp only [Object.construct] at hok
  split at hok
  · cases hok
  · split at hok
    · cases hok
    · split at hok
      · cases hok
      · split at hok
        · cases hok
        · next h1 h2 h3 h4 =>
          cases hds : constructDevices w.physDevs with
          | error e => rw [hds] at hok; cases hok
          | ok ds =>
            rw [hds] at hok
            cases hok
            refine ⟨rfl, rfl, rfl, ?_⟩
            intro h0
            simp [h0] at h3

/-- C5 counterexample: the enumeration succeeds and reports one accelerator,
yet Context creation still fails with the NoDevicesFound error kind
(VKRTL_ERROR_DEVICES), because Device construction propagates the same kind
when vkCreateDevice fails — refuting the claimed "only if". -/
theorem devices_error_without_enumeration_failure :
    Object.construct wDeviceCreationFails ModeOptions.VKRTL_none =
      .error Error.VKRTL_ERROR_DEVICES ∧
    wDeviceCreationFails.enumResult1 = VkResult.success ∧
    wDeviceCreationFails.physDevs.length = 1 ∧
    wDeviceCreationFails.enumResult2 = VkResult.success := by
  refine ⟨?_, rfl, rfl, rfl⟩
  decide

/-- C5 (amended): provided instance creation succeeds (and, in verbose mode,
the debug entry point resolves), Context creation fails with
VKRTL_ERROR_DEVICES whenever either enumeration call fails or zero devices
are reported; the same error kind is also propagated when logical-device
creation for an enumerated accelerator fails (see the counterexample); and
on success every enumerated physical accelerator is wrapped in a Device, in
order. -/
theorem object_construct_devices_characterization (w : DriverWorld) (mode : ModeOptions)
    (hInst : w.createInstanceOk = true)
    (hCb : verboseOf mode = true → w.debugProcAvailable = true) :
    ((w.enumResult1 ≠ VkResult.success ∨ w.physDevs.length = 0 ∨
        w.enumResult2 ≠ VkResult.success) →
      Object.construct w mode = .error Error.VKRTL_ERROR_DEVICES) ∧
    (∀ st, Object.construct w mode = .ok st →
      constructDevices w.physDevs = .ok st.devices ∧
      st.devices.length = w.physDevs.length) := by
  have hguard2 : (verboseOf mode && !w.debugProcAvailable) = false := by
    cases hv : verboseOf mode with
    | false => simp
    | true => simp [hCb hv]
  constructor
  · intro hdisj
    simp only [Object.construct]
    split
    · next h => simp [hInst] at h
    · split
      · next h => rw [hguard2] at h; exact absurd h (by simp)
      · split
        · rfl
        · split
          · rfl
          · next h1 h2 h3 h4 =>
            exfalso
            simp only [not_or, not_not] at h3 h4
            rcases hdisj with h | h | h
            · exact h h3.1
            · exact h3.2 h
            · exact h h4
  · intro st hok
    have hinv := Object.construct_ok_inversion w mode st hok
    exact ⟨hinv.1, constructDevices_length w.physDevs st.devices hinv.1⟩

/-- C5 witness: the characterization applied to a concrete driver whose
enumeration call fails. -/
theorem object_construct_devices_characterization_witness :
    Object.construct wEnumFails ModeOptions.VKRTL_none =
      .error Error.VKRTL_ERROR_DEVICES :=
  (object_construct_devices_characterization wEnumFails ModeOptions.VKRTL_none
    rfl (by intro h; cases h)).1 (Or.inl (by decide))

/-- C7 counterexample: with the validation layer available and the
non-verbose mode VKRTL_none, the instance is still created with one enabled
layer — the layer is enabled whenever available, not only in verbose mode. -/
theorem validation_layer_enabled_when_not_verbose :
    verboseOf ModeOptions.VKRTL_none = false ∧
    (Object.construct wLayerAvailable ModeOptions.VKRTL_none).map
      (fun st => st.createInfo.enabledLayerCount) = .ok 1 := by
  refine ⟨rfl, ?_⟩
  decide

/-- C7 (amended): the validation layer is enabled on the instance exactly
when it is available, regardless of mode; the debug-report extension is
enabled exactly when the layer is available and the mode is verbose; and on
a successfully constructed Context the message-forwarding callback is
installed exactly when the mode is verbose. -/
theorem validation_layer_policy (w : DriverWorld) (mode : ModeOptions) :
    ((instanceCreateInfo w (verboseOf mode)).enabledLayerCount =
        if layersAvailableCheck w.instanceLayers then 1 else 0) ∧
    ((instanceCreateInfo w (verboseOf mode)).enabledExtensionCount =
        if layersAvailableCheck w.instanceLayers && verboseOf mode then 1 else 0) ∧
    (∀ st, Object.construct w mode = .ok st →
      st.createInfo = instanceCreateInfo w (verboseOf mode) ∧
      st.callbackInstalled = verboseOf mode) := by
  refine ⟨?_, ?_, ?_⟩
  · rw [instanceCreateInfo]
    split <;> simp_all
  · rw [instanceCreateInfo]
    by_cases hl : layersAvailableCheck w.instanceLayers = true
    · simp [hl]
    · simp only [Bool.not_eq_true] at hl
      simp [hl]
  · intro st hok
    have hinv := Object.construct_ok_inversion w mode st hok
    exact ⟨hinv.2.1, hinv.2.2.1⟩

/-- C7 witness: the policy applied to the concrete layer-available driver in
non-verbose mode. -/
theorem validation_layer_policy_witness :
    objLayerAvailable.callbackInstalled = verboseOf ModeOptions.VKRTL_none ∧
    objLayerAvailable.createInfo =
      instanceCreateInfo wLayerAvailable (verboseOf ModeOptions.VKRTL_none) := by
  have h := (validation_layer_policy wLayerAvailable ModeOptions.VKRTL_none).2.2
    objLayerAvailable (by decide)
  exact ⟨h.2, h.1⟩

/-- C9: on every successfully constructed Context the device list is
non-empty (construction throws before the list can remain empty), so
getDevice(), which unconditionally reads element 0, is in range. -/
theorem getDevice_in_range (w : DriverWorld) (mode : ModeOptions) (st : ObjectState)
    (hok : Object.construct w mode = .ok st) :
    st.devices ≠ [] ∧ (Object.getDevice st).isSome = true := by
  have hinv := Object.construct_ok_inversion w mode st hok
  have hlen : st.devices.length = w.physDevs.length :=
    constructDevices_length w.physDevs st.devices hinv.1
  have hne : st.devices ≠ [] := by
    intro hnil
    rw [hnil] at hlen
    exact hinv.2.2.2 hlen.symm
  refine ⟨hne, ?_⟩
  cases hd : st.devices with
  | nil => exact absurd hd hne
  | cons d rest => simp [Object.getDevice, hd]

/-- C9 witness: applied to the concrete layer-available driver and the state
it constructs. -/
theorem getDevice_in_range_witness :
    (Object.getDevice objLayerAvailable).isSome = true :=
  (getDevice_in_range wLayerAvailable ModeOptions.VKRTL_none objLayerAvailable
    (by decide)).2

/-- C8: begin() fails with the recording-failure error kind
(VKRTL_ERROR_COMMAND_BUFFER) exactly when the command buffer is already
recording or the driver rejects the call; in every other case it succeeds,
and every success leaves the command buffer in the Recording state (in
particular Initial transitions to Recording). -/
theorem beginCB_characterization (s : CBState) (driverReject : Bool) :
    (CommandBuffer.beginCB s driverReject = .error Error.VKRTL_ERROR_COMMAND_BUFFER ↔
      (s = CBState.recording ∨ driverReject = true)) ∧
    (s ≠ CBState.recording → driverReject = false →
      CommandBuffer.beginCB s driverReject = .ok CBState.recording) ∧
    (∀ s2, CommandBuffer.beginCB s driverReject = .ok s2 → s2 = CBState.recording) := by
  refine ⟨?_, ?_, ?_⟩
  · cases s <;> cases driverReject <;> decide
  · cases s <;> cases driverReject <;> decide
  · intro s2
    cases s <;> cases driverReject <;> cases s2 <;> decide

/-- C8 witness: from the Initial state with a driver that accepts, begin()
succeeds and transitions to Recording. -/
theorem beginCB_characterization_witness :
    CommandBuffer.beginCB CBState.initial false = .ok CBState.recording :=
  (beginCB_characterization CBState.initial false).2.1 (by intro h; cases h) rfl

lemma memWrite_take (src dst : List UInt8) (n : Nat) (hs : src.length = n) :
    (memWrite src dst n).take n = src := by
  have h1 : src.take n = src := by rw [← hs, List.take_length]
  rw [memWrite, h1, ← hs, List.take_left]

lemma memWrite_memWrite (src mid dst : List UInt8) (n : Nat)
    (hs : src.length = n) (hd : dst.length = n) :
    memWrite (memWrite src mid n) dst n = src := by
  have h2 : dst.drop n = [] := by rw [← hd, List.drop_length]
  have h3 := memWrite_take src mid n hs
  rw [memWrite, h3, h2, List.append_nil]

/-- C1 counterexample: on devBadStaging, the int index memoryTypeMappable = 0
is converted to the bool false when the temporary staging Buffer is created
(vkrtlib.cc lines 469 and 486), so the staging buffer lands in the
non-host-visible device-local type and mapping it throws MapFailed: both
offload and inload on a device-local Buffer abort with VKRTL_ERROR_MAP and
no bytes are reproduced. -/
theorem offload_inload_roundtrip_counterexample :
    (Buffer.offload devBadStaging (Buffer.construct devBadStaging 4 false)
        [1, 2, 3, 4]).2 = .error Error.VKRTL_ERROR_MAP ∧
    (Buffer.inload devBadStaging (Buffer.construct devBadStaging 4 false)
        [0, 0, 0, 0]).2 = .error Error.VKRTL_ERROR_MAP := by
  constructor <;> rfl

/-- C1 (amended): on every device whose first host-visible memory-type index
is nonzero (so that the int-as-bool staging flag is true and the staging
buffer is actually host-visible), offload(src) followed by inload(dst) on a
device-local Buffer reproduces the source bytes exactly, for host arrays of
the driver-reported allocation size: offload stores exactly src in the
buffer's allocation and inload then returns exactly src. -/
theorem offload_inload_roundtrip (dev : DeviceCtx) (byteSize : Nat)
    (src dst0 : List UInt8) (i : Nat)
    (hMap : dev.memoryTypeMappable = Int.ofNat i) (hNz : i ≠ 0)
    (hHv : hostVisibleAt dev dev.memoryTypeMappable = true)
    (hsrc : src.length = dev.reqSize byteSize)
    (hdst : dst0.length = dev.reqSize byteSize) :
    (Buffer.offload dev (Buffer.construct dev byteSize false) src).2 =
      .ok { byteSize := byteSize, memTypeIdx := dev.memoryTypeLocal, alloc := src } ∧
    (Buffer.inload dev
        { byteSize := byteSize, memTypeIdx := dev.memoryTypeLocal, alloc := src }
        dst0).2 = .ok src := by
  have hbne : (dev.memoryTypeMappable != 0) = true := by
    rw [hMap, bne_iff_ne]
    show (i : Int) ≠ 0
    exact_mod_cast hNz
  constructor
  · simp only [Buffer.offload, Buffer.construct, Buffer.mapMem, hbne, if_true, hHv]
    rw [memWrite_memWrite src _ _ (dev.reqSize byteSize) hsrc (by simp)]
    simp
  · simp only [Buffer.inload, Buffer.construct, Buffer.mapMem, hbne, if_true, hHv]
    rw [memWrite_memWrite src _ _ (dev.reqSize byteSize) hsrc hdst]

/-- C1 witness: the round trip on the concrete device devRoundtrip with a
4-byte device-local buffer. -/
theorem offload_inload_roundtrip_witness :
    (Buffer.offload devRoundtrip (Buffer.construct devRoundtrip 4 false)
        [1, 2, 3, 4]).2 =
      .ok { byteSize := 4, memTypeIdx := devRoundtrip.memoryTypeLocal,
            alloc := [1, 2, 3, 4] } ∧
    (Buffer.inload devRoundtrip
        { byteSize := 4, memTypeIdx := devRoundtrip.memoryTypeLocal,
          alloc := [1, 2, 3, 4] } [0, 0, 0, 0]).2 = .ok [1, 2, 3, 4] :=
  offload_inload_roundtrip devRoundtrip 4 [1, 2, 3, 4] [0, 0, 0, 0] 1
    rfl (by decide) (by decide) (by decide) (by decide)

/-- C2 counterexample: on the concrete device devOrder, offload performs its
map/memcpy/unmap of the temporary before the begin/copy/end/submit/wait
sequence on the implicit command buffer, not after it as claimed: the actual
trace differs from the claimed begin-first ordering. -/
theorem transfer_order_counterexample :
    (Buffer.offload devOrder (Buffer.construct devOrder 4 false) [9, 9, 9, 9]).1 =
      [Ev.createBuffer 4 true, Ev.mapMem, Ev.memcpyHost 4, Ev.unmapMem,
       Ev.beginRec, Ev.copyCmd 4, Ev.endRec, Ev.submit, Ev.wait, Ev.destroyBuf] ∧
    (Buffer.offload devOrder (Buffer.construct devOrder 4 false) [9, 9, 9, 9]).1 ≠
      [Ev.createBuffer 4 true, Ev.beginRec, Ev.copyCmd 4, Ev.endRec, Ev.submit,
       Ev.wait, Ev.mapMem, Ev.memcpyHost 4, Ev.unmapMem, Ev.destroyBuf] := by
  constructor
  · rfl
  · decide

/-- C2 (amended): for every Buffer on a device whose first host-visible
memory-type index is nonzero, each transfer allocates a temporary Buffer of
the driver-reported requirements size, requested as mappable because the
nonzero int index converts to the bool true; inload performs begin, copy,
end, submit, wait on the implicit command buffer and then maps, memcpys,
unmaps the temporary; offload maps, memcpys and unmaps the temporary first
and then performs begin, copy, end, submit, wait; in both the temporary is
destroyed last, before returning. -/
theorem transfer_event_order (dev : DeviceCtx) (b : Buffer) (host : List UInt8)
    (i : Nat) (hMap : dev.memoryTypeMappable = Int.ofNat i) (hNz : i ≠ 0)
    (hHv : hostVisibleAt dev dev.memoryTypeMappable = true) :
    (Buffer.offload dev b host).1 =
      [Ev.createBuffer (dev.reqSize b.byteSize) true, Ev.mapMem,
       Ev.memcpyHost (dev.reqSize b.byteSize), Ev.unmapMem, Ev.beginRec,
       Ev.copyCmd (dev.reqSize b.byteSize), Ev.endRec, Ev.submit, Ev.wait,
       Ev.destroyBuf] ∧
    (Buffer.inload dev b host).1 =
      [Ev.createBuffer (dev.reqSize b.byteSize) true, Ev.beginRec,
       Ev.copyCmd (dev.reqSize b.byteSize), Ev.endRec, Ev.submit, Ev.wait,
       Ev.mapMem, Ev.memcpyHost (dev.reqSize b.byteSize), Ev.unmapMem,
       Ev.destroyBuf] := by
  have hbne : (dev.memoryTypeMappable != 0) = true := by
    rw [hMap, bne_iff_ne]
    show (i : Int) ≠ 0
    exact_mod_cast hNz
  constructor
  · simp only [Buffer.offload, Buffer.construct, Buffer.mapMem, hbne, if_true, hHv]
  · simp only [Buffer.inload, Buffer.construct, Buffer.mapMem, hbne, if_true, hHv]

/-- C2 witness: the event order instantiated on the concrete device devOrder
with a 4-byte device-local buffer. -/
theorem transfer_event_order_witness :
    (Buffer.offload devOrder (Buffer.construct devOrder 4 false) [9, 9, 9, 9]).1 =
      [Ev.createBuffer 4 true, Ev.mapMem, Ev.memcpyHost 4, Ev.unmapMem,
       Ev.beginRec, Ev.copyCmd 4, Ev.endRec, Ev.submit, Ev.wait, Ev.destroyBuf] ∧
    (Buffer.inload devOrder (Buffer.construct devOrder 4 false) [9, 9, 9, 9]).1 =
      [Ev.createBuffer 4 true, Ev.beginRec, Ev.copyCmd 4, Ev.endRec, Ev.submit,
       Ev.wait, Ev.mapMem, Ev.memcpyHost 4, Ev.unmapMem, Ev.destroyBuf] :=
  transfer_event_order devOrder (Buffer.construct devOrder 4 false) [9, 9, 9, 9] 1
    rfl (by decide) (by decide)

/-- C10: every host memcpy and every recorded buffer copy in inload/offload
transfers exactly the driver-reported memory-requirements size for the
buffer, not the byteSize requested at creation; in particular, whenever the
requirements size exceeds byteSize, the host-side memcpy covers more than
byteSize bytes. -/
theorem transfer_lengths_are_requirements_size (dev : DeviceCtx) (b : Buffer)
    (host : List UInt8) (n : Nat)
    (h : Ev.memcpyHost n ∈ (Buffer.offload dev b host).1 ∨
         Ev.copyCmd n ∈ (Buffer.offload dev b host).1 ∨
         Ev.memcpyHost n ∈ (Buffer.inload dev b host).1 ∨
         Ev.copyCmd n ∈ (Buffer.inload dev b host).1) :
    n = dev.reqSize b.byteSize ∧
    (b.byteSize < dev.reqSize b.byteSize → b.byteSize < n) := by
  have hn : n = dev.reqSize b.byteSize := by
    rcases h with h | h | h | h
    all_goals
      simp only [Buffer.offload, Buffer.inload] at h
    all_goals
      split at h <;> simp_all
  exact ⟨hn, fun hlt => hn ▸ hlt⟩

/-- C10 witness: on devPadded a 3-byte device-local buffer is allocated with
4 bytes, and the host memcpy recorded by offload covers those 4 bytes,
exceeding the requested byteSize of 3. -/
theorem transfer_lengths_are_requirements_size_witness :
    Ev.memcpyHost 4 ∈
      (Buffer.offload devPadded (Buffer.construct devPadded 3 false) [7, 7, 7, 7]).1 ∧
    (4 = devPadded.reqSize (Buffer.construct devPadded 3 false).byteSize ∧
     ((Buffer.construct devPadded 3 false).byteSize <
        devPadded.reqSize (Buffer.construct devPadded 3 false).byteSize →
      (Buffer.construct devPadded 3 false).byteSize < 4)) :=
  ⟨by decide,
   transfer_lengths_are_requirements_size devPadded
     (Buffer.construct devPadded 3 false) [7, 7, 7, 7] 4 (Or.inl (by decide))⟩

end vkrtl
